import Mathlib

/-
Verification of the Keycloak end-to-end test suite (Playwright + Cucumber +
Lighthouse glue code): a shallow embedding of the environment-configuration
resolver, the per-scenario execution-context lifecycle hooks, the credential
substitution of the login steps, the lighthouse audit and score-assertion
steps, the navigate-to-login URL parameters, and the report-cleanup file
selection, together with theorems settling the frozen specification claims.
-/

deriving instance DecidableEq for Except

namespace KeycloakE2E

/-- Computable model of String.startsWith over the underlying character
list (the byte-level library primitive does not reduce in the kernel). -/
def strStartsWith (s p : String) : Bool :=
  decide (s.data.take p.data.length = p.data)

/-- Computable model of String.endsWith over the underlying character
list. -/
def strEndsWith (s p : String) : Bool :=
  decide (s.data.drop (s.data.length - p.data.length) = p.data)

/-- Whether a step body returned without raising. -/
def stepSucceeds {ε α : Type} : Except ε α → Bool
  | .ok _ => true
  | .error _ => false

/-! ## Environment configuration (src/src/lighthouse file, loadConfig) -/

/-- The configuration record parsed from a config/NAME.json file. -/
structure Config where
  baseUrl : String
  username : String
  password : String
deriving DecidableEq, Repr

/-- Content of a configuration file on disk: either the JSON parses to a
Config, or JSON.parse would throw on it. -/
inductive FileContent where
  | malformed : FileContent
  | wellFormed : Config → FileContent
deriving DecidableEq, Repr

/-- A file system restricted to the config directory: an association list
from file name to content; a name that is not a key is a missing file
(fs.existsSync false, readFileSync throws). -/
def ConfigFS : Type := List (String × FileContent)

/-- Errors loadConfig can raise: readFileSync on a missing file (ENOENT)
or JSON.parse on malformed data. -/
inductive ConfigError where
  | missing : ConfigError
  | parseError : ConfigError
deriving DecidableEq, Repr

/-- JSON.parse(fs.readFileSync(path)) for an existing file. -/
def parseFile : FileContent → Except ConfigError Config
  | .malformed => .error .parseError
  | .wellFormed c => .ok c

/-- The effective environment name: process.env.NODE_ENV with the JS
falsy-or default, so an unset or empty NODE_ENV yields "local". -/
def effectiveEnv (nodeEnv : Option String) : String :=
  match nodeEnv with
  | none => "local"
  | some s => if s = "" then "local" else s

/-- The file name the resolver builds for an environment name. -/
def configFileName (env : String) : String := env ++ ".json"

/-- loadConfig from the step-definition files: take NODE_ENV (default
"local"); if config/ENV.json exists, parse it; otherwise read and parse
config/local.json (readFileSync throws if local.json is also missing). -/
def loadConfig (fs : ConfigFS) (nodeEnv : Option String) : Except ConfigError Config :=
  let env := effectiveEnv nodeEnv
  match List.lookup (configFileName env) fs with
  | some content => parseFile content
  | none =>
    match List.lookup (configFileName "local") fs with
    | some content => parseFile content
    | none => .error .missing

/-! ## Credential substitution (login steps, I enter the username/password as) -/

/-- The username actually filled by the step I enter the username as: the
config username when the literal is the placeholder "admin", else the
literal itself. -/
def actualUsername (cfg : Config) (lit : String) : String :=
  if lit = "admin" then cfg.username else lit

/-- The password actually filled by the step I enter the password as: the
config password when the literal is the placeholder "password", else the
literal itself. -/
def actualPassword (cfg : Config) (lit : String) : String :=
  if lit = "password" then cfg.password else lit

/-! ## Score assertion step (the accessibility score should be over N%) -/

/-- Failure modes of the score assertion step: the world holds no stored
score, or expect(actual).toBeGreaterThan(expected) fails. -/
inductive ScoreError where
  | notAvailable : ScoreError
  | belowThreshold : ScoreError
deriving DecidableEq, Repr

/-- The step body: throw when this.accessibilityScore is undefined,
otherwise assert strict greater-than against the literal threshold. -/
def assertScoreOver (stored : Option ℚ) (threshold : ℚ) : Except ScoreError Unit :=
  match stored with
  | none => .error .notAvailable
  | some s => if s > threshold then .ok () else .error .belowThreshold

/-! ## Execution context lifecycle (Cucumber Before / After hooks) -/

/-- The three automation handles held by the CustomWorld. -/
inductive Handle where
  | page : Handle
  | context : Handle
  | browser : Handle
deriving DecidableEq, Repr, Fintype

/-- Which of the CustomWorld handle fields are non-null. -/
structure World where
  page : Bool
  context : Bool
  browser : Bool
deriving DecidableEq, Repr, Fintype

/-- Environment behaviour for teardown: whether each close() call would
reject if awaited. -/
structure CloseBehavior where
  pageCloseFails : Bool
  contextCloseFails : Bool
  browserCloseFails : Bool
deriving DecidableEq, Repr, Fintype

/-- Whether the close of a given handle rejects under a behaviour. -/
def CloseBehavior.failsFor (b : CloseBehavior) : Handle → Bool
  | .page => b.pageCloseFails
  | .context => b.contextCloseFails
  | .browser => b.browserCloseFails

/-- Whether the world holds a given handle. -/
def World.has (w : World) : Handle → Bool
  | .page => w.page
  | .context => w.context
  | .browser => w.browser

/-- The handles present in a world, in close order page, context, browser. -/
def World.presentHandles (w : World) : List Handle :=
  [Handle.page, Handle.context, Handle.browser].filter w.has

/-- One guarded close line of the After hook: if the handle is non-null,
await its close; a rejection aborts the hook there. Returns the close
calls attempted so far and the propagated error, if any. -/
def closeStep (present fails : Bool) (h : Handle) (acc : List Handle) :
    List Handle × Option Handle :=
  if present then (acc ++ [h], if fails then some h else none) else (acc, none)

/-- The After hook: close page, then context, then browser, each behind a
null check only; an awaited rejection aborts the remaining closes and
propagates out of the hook. Returns the close calls attempted (in order)
and the error propagated to the runner, if any. -/
def afterHook (w : World) (b : CloseBehavior) : List Handle × Option Handle :=
  match closeStep w.page b.pageCloseFails Handle.page [] with
  | (a1, some h) => (a1, some h)
  | (a1, none) =>
    match closeStep w.context b.contextCloseFails Handle.context a1 with
    | (a2, some h) => (a2, some h)
    | (a2, none) => closeStep w.browser b.browserCloseFails Handle.browser a2

/-- The first handle, in close order, that is present and whose close
would reject — the rejection the hook runs into first, if any. -/
def firstFailingClose (w : World) (b : CloseBehavior) : Option Handle :=
  List.find? b.failsFor w.presentHandles

/-- Environment behaviour for setup: whether each of the three sequential
acquisitions rejects. -/
structure SetupBehavior where
  launchFails : Bool
  newContextFails : Bool
  newPageFails : Bool
deriving DecidableEq, Repr, Fintype

/-- The Before hook after config resolution: this.browser = launch();
this.context = browser.newContext(...); this.page = context.newPage().
A rejection aborts the hook with the assignments made so far retained;
no close call appears anywhere in the hook. Returns the resulting world
and whether the hook raised. -/
def beforeHook (b : SetupBehavior) : World × Bool :=
  if b.launchFails then (⟨false, false, false⟩, true)
  else if b.newContextFails then (⟨false, false, true⟩, true)
  else if b.newPageFails then (⟨false, true, true⟩, true)
  else (⟨true, true, true⟩, false)

/-! ## Lighthouse audit step (I run the lighthouse accessibility audit) -/

/-- Outcome of the audit step body: the error message thrown, or the score
stored into the world together with whether a diagnostic
skip-or-fallback note was added to the report. -/
def runAudit (browserAvailable : Bool) (browserName : String)
    (engine : Except Unit (Option ℚ)) : Except String (ℚ × Bool) :=
  if ¬ browserAvailable then .error "Browser not available for lighthouse audit"
  else if browserName ≠ "chromium" then .ok (100, true)
  else
    match engine with
    | .error _ => .ok (85, true)
    | .ok s => .ok ((s.getD 0) * 100, false)

/-! ## Fallback-laden assertion steps (admin navigation file) -/

/-- Result of the step I should be able to view general settings: which
of its three logging paths ran (the step body throws on none of them). -/
inductive GeneralSettingsResult where
  | visibleForm : GeneralSettingsResult
  | fallbackElements : GeneralSettingsResult
  | fallbackNoElements : GeneralSettingsResult
deriving DecidableEq, Repr

/-- The step I should be able to view general settings: try waitFor
visible on the first form control; on timeout, count form controls and
log one of two messages — neither catch branch throws. -/
def viewGeneralSettings (waitSucceeds : Bool) (controlCount : Nat) :
    Except Unit GeneralSettingsResult :=
  if waitSucceeds then .ok .visibleForm
  else if controlCount > 0 then .ok .fallbackElements
  else .ok .fallbackNoElements

/-- The step I should see the server status information: try waitFor
visible on a status locator; on timeout, assert the URL contains
server-info (this expect can fail the step), then count info elements
and log either way without failing. -/
def serverStatusInfo (waitSucceeds urlHasServerInfo : Bool)
    (_infoElementCount : Nat) : Except Unit Unit :=
  if waitSucceeds then .ok ()
  else if urlHasServerInfo then .ok ()
  else .error ()

/-! ## Navigate-to-login URL parameters (User navigates to the application) -/

/-- The state and nonce query parameters of the authorization-request URL. -/
structure AuthRequest where
  state : ℤ
  nonce : ℤ
deriving DecidableEq, Repr

/-- The parameters the step computes from the millisecond clock: state is
one Date.now() read and nonce is a second, immediately following read —
two separate reads, which may differ if they straddle a millisecond
tick. -/
def navigateAuthRequest (stateRead nonceRead : ℤ) : AuthRequest :=
  { state := stateRead, nonce := nonceRead }

/-- The readings Date.now() returns across successive reads (within and
across invocations): the clock is monotone but has millisecond
granularity, so two successive reads may return the same value. -/
def ValidClockTrace (ts : List ℤ) : Prop := List.Chain' (· ≤ ·) ts

/-! ## Report cleanup (clean-lighthouse-reports script) -/

/-- A file in the reports/lighthouse directory: name and modification
time in milliseconds since the epoch. -/
structure FileEntry where
  name : String
  mtime : ℤ
deriving DecidableEq, Repr

/-- The command-line options that influence file selection. -/
structure CleanupFlags where
  loginOnly : Bool
  consoleOnly : Bool
  olderThanDays : Option ℤ
deriving DecidableEq, Repr

/-- Milliseconds per day, the divisor 1000 * 60 * 60 * 24. -/
def msPerDay : ℤ := 1000 * 60 * 60 * 24

/-- Whether a file name is a lighthouse report file at all (the first
guard of the filter). -/
def matchesReportPattern (name : String) : Bool :=
  strStartsWith name "keycloak-" && (strEndsWith name ".html" || strEndsWith name ".json")

/-- The filter predicate building filesToDelete: reject non-report names,
then apply the login/console name filters, then reject files whose age
in days (float division of the mtime delta) is below the threshold. -/
def selectForDeletion (flags : CleanupFlags) (now : ℤ) (f : FileEntry) : Bool :=
  if matchesReportPattern f.name = false then false
  else if flags.loginOnly && ! strStartsWith f.name "keycloak-login-" then false
  else if flags.consoleOnly && ! strStartsWith f.name "keycloak-console-" then false
  else
    match flags.olderThanDays with
    | none => true
    | some d =>
      let fileAge : ℚ := ((now - f.mtime : ℤ) : ℚ) / (msPerDay : ℚ)
      if fileAge < (d : ℚ) then false else true

/-- filesToDelete: the directory listing filtered by the predicate. -/
def filesToDelete (flags : CleanupFlags) (now : ℤ) (files : List FileEntry) :
    List FileEntry :=
  files.filter (selectForDeletion flags now)

/-- The files remaining after performDeletion unlinks exactly the
selected files. -/
def remainingAfterCleanup (flags : CleanupFlags) (now : ℤ)
    (files : List FileEntry) : List FileEntry :=
  files.filter (fun f => ! selectForDeletion flags now f)

/-! ## Claim C1: environment configuration resolution -/

/-- C1 counterexample: with NODE_ENV naming a file that does not exist and
the default local.json present but malformed, loadConfig raises a parse
error even though the default file is not missing — refuting the claim
that a raise can only come from a missing default file. -/
theorem loadConfig_malformed_default_raises :
    loadConfig [("local.json", FileContent.malformed)] (some "dev") = .error .parseError
    ∧ List.lookup (configFileName (effectiveEnv (some "dev")))
        [("local.json", FileContent.malformed)] = none
    ∧ List.lookup (configFileName "local")
        [("local.json", FileContent.malformed)] ≠ none := by
  refine ⟨by decide, by decide, by decide⟩

/-- C1 (amended): resolution returns the exact parsed triple when the
named file exists and is well-formed; when the effective environment
names no existing file it falls back to local.json, returning its triple
when well-formed, and raising exactly when the default file is missing or
cannot be parsed. -/
theorem loadConfig_resolution (fs : ConfigFS) (nodeEnv : Option String) :
    (∀ c, List.lookup (configFileName (effectiveEnv nodeEnv)) fs =
        some (FileContent.wellFormed c) → loadConfig fs nodeEnv = .ok c)
    ∧ (List.lookup (configFileName (effectiveEnv nodeEnv)) fs = none →
        (∀ c, List.lookup (configFileName "local") fs =
            some (FileContent.wellFormed c) → loadConfig fs nodeEnv = .ok c)
        ∧ (List.lookup (configFileName "local") fs = some FileContent.malformed →
            loadConfig fs nodeEnv = .error .parseError)
        ∧ (List.lookup (configFileName "local") fs = none →
            loadConfig fs nodeEnv = .error .missing)) := by
  refine ⟨?_, fun hmiss => ⟨?_, ?_, ?_⟩⟩
  · intro c h
    simp [loadConfig, h, parseFile]
  · intro c h
    simp [loadConfig, hmiss, h, parseFile]
  · intro h
    simp [loadConfig, hmiss, h, parseFile]
  · intro h
    simp [loadConfig, hmiss, h]

/-- C1 witness: on a file system holding a well-formed dev.json, the
resolver returns exactly its triple. -/
theorem loadConfig_resolution_witness :
    loadConfig [("dev.json", FileContent.wellFormed ⟨"https://dev:8443/", "root", "s3cret"⟩)]
      (some "dev") = .ok ⟨"https://dev:8443/", "root", "s3cret"⟩ :=
  (loadConfig_resolution
      [("dev.json", FileContent.wellFormed ⟨"https://dev:8443/", "root", "s3cret"⟩)]
      (some "dev")).1
    ⟨"https://dev:8443/", "root", "s3cret"⟩ (by decide)

/-! ## Claim C2: credential placeholder substitution -/

/-- C2: the Enter-credential steps substitute the configured username for
the placeholder literal "admin" and the configured password for the
placeholder literal "password", and fill any other literal verbatim. -/
theorem enterCredential_substitution (cfg : Config) (lit : String) :
    actualUsername cfg "admin" = cfg.username
    ∧ actualPassword cfg "password" = cfg.password
    ∧ (lit ≠ "admin" → actualUsername cfg lit = lit)
    ∧ (lit ≠ "password" → actualPassword cfg lit = lit) := by
  refine ⟨by simp [actualUsername], by simp [actualPassword], ?_, ?_⟩ <;>
    intro h <;> simp [actualUsername, actualPassword, h]

/-- C2 witness: with a config whose username is "root", the literal
"admin" fills "root", while the literals "invaliduser" and
"wrongpassword" are filled verbatim. -/
theorem enterCredential_substitution_witness :
    actualUsername ⟨"https://localhost:8443/", "root", "s3cret"⟩ "admin" = "root"
    ∧ actualUsername ⟨"https://localhost:8443/", "root", "s3cret"⟩ "invaliduser" = "invaliduser"
    ∧ actualPassword ⟨"https://localhost:8443/", "root", "s3cret"⟩ "wrongpassword" = "wrongpassword" :=
  ⟨(enterCredential_substitution ⟨"https://localhost:8443/", "root", "s3cret"⟩ "x").1,
   (enterCredential_substitution ⟨"https://localhost:8443/", "root", "s3cret"⟩ "invaliduser").2.2.1
     (by decide),
   (enterCredential_substitution ⟨"https://localhost:8443/", "root", "s3cret"⟩ "wrongpassword").2.2.2
     (by decide)⟩

/-! ## Claim C3: teardown release guarding -/

/-- C3 counterexample: with all three handles present and the page close
rejecting, the After hook stops after the page close — the context and
browser closes are never attempted and the failure propagates to the
runner, refuting both the per-handle guarding and the errors-logged-only
parts of the claim. -/
theorem afterHook_page_close_failure_aborts :
    (afterHook ⟨true, true, true⟩ ⟨true, false, false⟩).2 = some Handle.page
    ∧ Handle.context ∉ (afterHook ⟨true, true, true⟩ ⟨true, false, false⟩).1
    ∧ Handle.browser ∉ (afterHook ⟨true, true, true⟩ ⟨true, false, false⟩).1 := by
  decide

/-- C3 (amended): teardown closes page, then context, then browser, each
behind a null check only, and the releases are not guarded against
errors: the error propagated out of the hook is exactly the first failing
close among the present handles — in particular any close failure whose
predecessors succeed does propagate to the caller — and when it is some
h, only the handles up to and including h were attempted, while only a
run with no failing close of a present handle releases every present
handle, in order, and raises nothing. -/
theorem afterHook_ordered_release : ∀ (w : World) (b : CloseBehavior),
    (afterHook w b).2 = firstFailingClose w b
    ∧ ((afterHook w b).2 = none → afterHook w b = (w.presentHandles, none))
    ∧ (∀ h, (afterHook w b).2 = some h →
        b.failsFor h = true ∧ h ∈ w.presentHandles ∧
        (afterHook w b).1 = (w.presentHandles.takeWhile (fun x => x != h)) ++ [h]) := by
  decide

/-- C3 witness: with all handles present and no close failing, the hook
releases page, context, browser in order and raises nothing; with the
context close failing instead, the propagated error is that first
failing close. -/
theorem afterHook_ordered_release_witness :
    afterHook ⟨true, true, true⟩ ⟨false, false, false⟩ =
      (World.presentHandles ⟨true, true, true⟩, none)
    ∧ (afterHook ⟨true, true, true⟩ ⟨false, true, false⟩).2 =
        firstFailingClose ⟨true, true, true⟩ ⟨false, true, false⟩ :=
  ⟨(afterHook_ordered_release ⟨true, true, true⟩ ⟨false, false, false⟩).2.1 (by decide),
   (afterHook_ordered_release ⟨true, true, true⟩ ⟨false, true, false⟩).1⟩

/-! ## Claim C4: setup failure leaves no handle acquired -/

/-- C4 counterexample: when browser launch succeeds but context creation
fails, the Before hook raises while the browser handle is still assigned
to the world — refuting the claim that nothing remains acquired. -/
theorem beforeHook_partial_failure_keeps_browser :
    (beforeHook ⟨false, true, false⟩).2 = true
    ∧ (beforeHook ⟨false, true, false⟩).1.browser = true := by
  decide

/-- C4 (amended): a failure of any of the three sequential acquisitions
makes the setup transition raise, but the handles acquired earlier in the
attempt remain assigned to the world (their release is deferred to the
After hook); only a fully successful run leaves all three assigned with
no raise. -/
theorem beforeHook_no_rollback : ∀ b : SetupBehavior,
    ((beforeHook b).2 = true ↔
        (b.launchFails || b.newContextFails || b.newPageFails) = true)
    ∧ (b.launchFails = true → (beforeHook b).1 = ⟨false, false, false⟩)
    ∧ (b.launchFails = false → b.newContextFails = true →
        (beforeHook b).1 = ⟨false, false, true⟩)
    ∧ (b.launchFails = false → b.newContextFails = false → b.newPageFails = true →
        (beforeHook b).1 = ⟨false, true, true⟩)
    ∧ ((beforeHook b).2 = false → (beforeHook b).1 = ⟨true, true, true⟩) := by
  decide

/-- C4 witness: launch ok, newContext fails — the hook raises with the
browser handle still held. -/
theorem beforeHook_no_rollback_witness :
    (beforeHook ⟨false, true, true⟩).1 = ⟨false, false, true⟩ :=
  (beforeHook_no_rollback ⟨false, true, true⟩).2.2.1 (by decide) (by decide)

/-! ## Claim C5: strict score threshold assertion -/

/-- C5: the score assertion passes at stored 85 against threshold 80,
fails at stored 80 against threshold 80 (strict inequality), raises the
distinct not-available error whenever no score was stored, and in general
succeeds exactly when the stored score strictly exceeds the threshold. -/
theorem assertScoreOver_strict (t s : ℚ) :
    assertScoreOver (some 85) 80 = .ok ()
    ∧ assertScoreOver (some 80) 80 = .error .belowThreshold
    ∧ assertScoreOver none t = .error .notAvailable
    ∧ (assertScoreOver (some s) t = .ok () ↔ t < s) := by
  refine ⟨by norm_num [assertScoreOver], by norm_num [assertScoreOver], rfl, ?_⟩
  by_cases h : s > t <;> simp [assertScoreOver, h]

/-- C5 witness: a concrete strict comparison derived through the general
characterization. -/
theorem assertScoreOver_strict_witness :
    assertScoreOver (some 95) 90 = .ok () :=
  (assertScoreOver_strict 90 95).2.2.2.mpr (by norm_num)

/-! ## Claim C6: audit step downgrades engine failure -/

/-- C6: the audit step never fails the scenario on auditing-engine
trouble — with a browser present it always returns successfully; on a
non-Chromium browser it stores the neutral passing placeholder 100 with
a diagnostic note, and when the engine throws it stores the fixed
fallback 85, which is above the 80 pass threshold, with a diagnostic
note. -/
theorem runAudit_engine_trouble_downgraded (browserName : String)
    (engine : Except Unit (Option ℚ)) :
    (browserName ≠ "chromium" → runAudit true browserName engine = .ok (100, true))
    ∧ runAudit true "chromium" (.error ()) = .ok (85, true)
    ∧ (85 : ℚ) > 80
    ∧ stepSucceeds (runAudit true browserName engine) = true := by
  refine ⟨?_, by norm_num [runAudit], by norm_num, ?_⟩
  · intro h
    simp [runAudit, h]
  · by_cases h : browserName = "chromium" <;>
      rcases engine with e | s <;>
        simp [runAudit, h, stepSucceeds]

/-- C6 witness: on Firefox the step stores the placeholder 100 and
succeeds. -/
theorem runAudit_engine_trouble_downgraded_witness :
    runAudit true "firefox" (.ok (some 1)) = .ok (100, true) :=
  (runAudit_engine_trouble_downgraded "firefox" (.ok (some 1))).1 (by decide)

/-! ## Claim C7: wait timeouts as step failures -/

/-- C7 counterexample: with the visibility wait timing out and zero
matching elements on the page, the view-general-settings step still
returns success, and the server-status step also returns success when its
wait times out while the URL check passes — a wait timeout silently
continued, refuting the claim that a timeout always fails the step. -/
theorem fallbackSteps_silent_timeout :
    viewGeneralSettings false 0 = .ok .fallbackNoElements
    ∧ serverStatusInfo false true 0 = .ok () := by
  decide

/-- C7 (amended): the steps with fallback catch blocks swallow their wait
timeouts — view-general-settings never fails regardless of the timeout or
element count, and server-status-information fails only when both the
wait times out and the URL check fails; a caught timeout otherwise
continues the step as a success. -/
theorem fallbackSteps_swallow_timeouts : ∀ (w u : Bool) (c n : Nat),
    stepSucceeds (viewGeneralSettings w c) = true
    ∧ (stepSucceeds (serverStatusInfo w u n) = false ↔ (w = false ∧ u = false)) := by
  intro w u c n
  constructor
  · cases w <;> by_cases hc : c > 0 <;> simp [viewGeneralSettings, stepSucceeds, hc]
  · cases w <;> cases u <;> simp [serverStatusInfo, stepSucceeds]

/-- C7 witness: a concrete instance — wait timed out, three elements
found, step reported success. -/
theorem fallbackSteps_swallow_timeouts_witness :
    stepSucceeds (viewGeneralSettings false 3) = true :=
  (fallbackSteps_swallow_timeouts false true 3 0).1

/-! ## Claim C8: cleanup age filter -/

/-- C8 counterexample: a login report whose modification time is exactly
7 days in the past is selected for deletion by older-than 7, although its
age is not more than 7 days — the code keeps files at age greater than or
equal to the threshold, refuting the strictly-more-than reading. -/
theorem cleanup_selects_exact_boundary_file :
    selectForDeletion ⟨false, false, some 7⟩ (7 * msPerDay) ⟨"keycloak-login-a.html", 0⟩ = true
    ∧ ¬ ((((7 * msPerDay - 0 : ℤ) : ℚ) / (msPerDay : ℚ)) > 7) := by
  have hp : matchesReportPattern "keycloak-login-a.html" = true := by decide
  constructor
  · simp only [selectForDeletion]
    norm_num [hp, msPerDay]
  · norm_num [msPerDay]

/-- C8 (amended): with older-than d given, a file is selected for
deletion exactly when it matches the report-name pattern, passes every
given type filter, and its age in days is at least d (greater than or
equal, not strictly greater). -/
theorem cleanup_age_filter_conjunctive (flags : CleanupFlags) (now d : ℤ)
    (f : FileEntry) (hd : flags.olderThanDays = some d) :
    selectForDeletion flags now f = true ↔
      (matchesReportPattern f.name = true
       ∧ (flags.loginOnly = true → strStartsWith f.name "keycloak-login-" = true)
       ∧ (flags.consoleOnly = true → strStartsWith f.name "keycloak-console-" = true)
       ∧ (d : ℚ) ≤ ((now - f.mtime : ℤ) : ℚ) / (msPerDay : ℚ)) := by
  simp only [selectForDeletion, hd]
  by_cases hage : ((now - f.mtime : ℤ) : ℚ) / (msPerDay : ℚ) < (d : ℚ)
  · cases hp : matchesReportPattern f.name <;>
      cases hlo : flags.loginOnly <;>
        cases hco : flags.consoleOnly <;>
          cases hls : strStartsWith f.name "keycloak-login-" <;>
            cases hcs : strStartsWith f.name "keycloak-console-" <;>
              simp [hp, hlo, hco, hls, hcs, hage, hage.not_le]
  · have hle := not_lt.mp hage
    cases hp : matchesReportPattern f.name <;>
      cases hlo : flags.loginOnly <;>
        cases hco : flags.consoleOnly <;>
          cases hls : strStartsWith f.name "keycloak-login-" <;>
            cases hcs : strStartsWith f.name "keycloak-console-" <;>
              simp [hp, hlo, hco, hls, hcs, hage, hle]

/-- C8 witness: an eight-day-old login report is selected under the
login filter combined with older-than 7. -/
theorem cleanup_age_filter_conjunctive_witness :
    selectForDeletion ⟨true, false, some 7⟩ (8 * msPerDay) ⟨"keycloak-login-a.html", 0⟩ = true :=
  (cleanup_age_filter_conjunctive ⟨true, false, some 7⟩ (8 * msPerDay) 7
      ⟨"keycloak-login-a.html", 0⟩ rfl).mpr
    ⟨by decide, by decide, by decide, by norm_num [msPerDay]⟩

/-! ## Claim C9: per-call state and nonce freshness -/

/-- C9 counterexample: two distinct invocations of the navigate step
within the same millisecond — four successive clock reads all returning
the same value, a valid trace for a monotone millisecond clock — produce
coinciding state values (and coinciding nonce values), so per-call
uniqueness does not hold. -/
theorem navigateAuthRequest_not_unique_per_call :
    ValidClockTrace [1700000000000, 1700000000000, 1700000000000, 1700000000000]
    ∧ ¬ List.Pairwise (fun r1 r2 => r1.state ≠ r2.state)
        [navigateAuthRequest 1700000000000 1700000000000,
         navigateAuthRequest 1700000000000 1700000000000]
    ∧ ¬ List.Pairwise (fun r1 r2 => r1.nonce ≠ r2.nonce)
        [navigateAuthRequest 1700000000000 1700000000000,
         navigateAuthRequest 1700000000000 1700000000000] := by
  refine ⟨by simp [ValidClockTrace], ?_, ?_⟩ <;> simp [navigateAuthRequest]

/-- C9 (amended): each invocation sets state from one millisecond clock
reading and nonce from a second, immediately following reading — the
values carry exactly those reads, so invocations whose respective reads
differ produce distinct state values and distinct nonce values, but two
calls within the same millisecond produce identical values; per-call
uniqueness is therefore not guaranteed. -/
theorem navigateAuthRequest_clock_determined (s1 n1 s2 n2 : ℤ)
    (hs : s1 ≠ s2) (hn : n1 ≠ n2) :
    (navigateAuthRequest s1 n1).state = s1
    ∧ (navigateAuthRequest s1 n1).nonce = n1
    ∧ (navigateAuthRequest s1 n1).state ≠ (navigateAuthRequest s2 n2).state
    ∧ (navigateAuthRequest s1 n1).nonce ≠ (navigateAuthRequest s2 n2).nonce :=
  ⟨rfl, rfl, hs, hn⟩

/-- C9 witness: two calls whose clock reads are one millisecond apart
produce distinct state values and distinct nonce values. -/
theorem navigateAuthRequest_clock_determined_witness :
    (navigateAuthRequest 1700000000000 1700000000000).state ≠
      (navigateAuthRequest 1700000000001 1700000000001).state :=
  (navigateAuthRequest_clock_determined 1700000000000 1700000000000
      1700000000001 1700000000001 (by decide) (by decide)).2.2.1

/-! ## Claim C10: cleanup touches only report files -/

/-- C10: under every flag combination, only files whose name starts with
keycloak- and ends with .html or .json are selected for deletion, and
every file of the directory that does not match this report pattern
survives the cleanup run unchanged. -/
theorem cleanup_deletes_only_report_files (flags : CleanupFlags) (now : ℤ)
    (files : List FileEntry) (f : FileEntry) :
    (f ∈ filesToDelete flags now files →
        strStartsWith f.name "keycloak-" = true
        ∧ (strEndsWith f.name ".html" = true ∨ strEndsWith f.name ".json" = true))
    ∧ (f ∈ files → matchesReportPattern f.name = false →
        f ∈ remainingAfterCleanup flags now files) := by
  constructor
  · intro hmem
    have hsel : selectForDeletion flags now f = true :=
      (List.mem_filter.mp hmem).2
    have hpat : matchesReportPattern f.name = true := by
      by_contra hp
      simp only [Bool.not_eq_true] at hp
      simp [selectForDeletion, hp] at hsel
    rcases Bool.and_eq_true_iff.mp hpat with ⟨hs, he⟩
    exact ⟨hs, Bool.or_eq_true_iff.mp he⟩
  · intro hmem hpat
    refine List.mem_filter.mpr ⟨hmem, ?_⟩
    simp [selectForDeletion, hpat]

/-- C10 witness: index.html is untouched by a forced full cleanup of a
directory that also holds a real report file. -/
theorem cleanup_deletes_only_report_files_witness :
    (⟨"index.html", 0⟩ : FileEntry) ∈
      remainingAfterCleanup ⟨false, false, none⟩ 0
        [⟨"index.html", 0⟩, ⟨"keycloak-login-a.html", 0⟩] :=
  (cleanup_deletes_only_report_files ⟨false, false, none⟩ 0
      [⟨"index.html", 0⟩, ⟨"keycloak-login-a.html", 0⟩] ⟨"index.html", 0⟩).2
    (by decide) (by decide)

end KeycloakE2E
